import Mathlib

/-!
Shallow embedding of the KYC/KYB subsystem of the STATS repository
(src/users/models.py, src/users/views.py, src/users/serializers.py).

Django querysets are modelled as Lean lists, model rows as structures,
timestamps as natural numbers, and each view/signal/model method as a
pure function from the relevant rows to a result (errors are explicit
constructors mirroring the spec's error taxonomy).
-/

namespace Stats

/-- DocumentType.applicable_to choices (models.py 152-159). -/
inductive ApplicableTo
  | individual
  | business
  | both
deriving DecidableEq, Repr

/-- KYCSubmission.status choices (models.py 203-212). -/
inductive SubStatus
  | pending
  | in_review
  | approved
  | rejected
deriving DecidableEq, Repr

/-- KYCDocument.status choices (models.py 267-274). -/
inductive DocStatus
  | pending
  | approved
  | rejected
deriving DecidableEq, Repr

/-- Profile.account_type choices (models.py 58-63). -/
inductive AccountType
  | individual
  | business
deriving DecidableEq, Repr

/-- BusinessOwner.ownership_type choices (models.py 124-133). -/
inductive OwnershipType
  | owner
  | director
  | shareholder
  | manager
deriving DecidableEq, Repr

/-- A DocumentType catalog row (models.py 151-171).  Roles are modelled
by their numeric ids. -/
structure DocumentType where
  id : Nat
  name : String
  applicable_to : ApplicableTo
  is_active : Bool
  is_required : Bool
  required_roles : List Nat
  max_file_size_mb : Nat
  allowed_file_types : List String
deriving DecidableEq, Repr

/-- A KYCSubmission row (models.py 202-228).  `business_profile` is the
optional id of the owning business; `submitted_at` is an optional
timestamp. -/
structure KYCSubmission where
  id : Nat
  user_id : Nat
  business_profile : Option Nat
  status : SubStatus
  submitted_at : Option Nat
deriving DecidableEq, Repr

/-- A KYCDocument row (models.py 266-298). -/
structure KYCDocument where
  id : Nat
  submission_id : Nat
  document_type_id : Nat
  status : DocStatus
  file_size_bytes : Option Nat
  file_hash : Option String
deriving DecidableEq, Repr

/-- A BusinessOwner row (models.py 119-144). -/
structure BusinessOwner where
  business_id : Nat
  user_id : Nat
  ownership_type : OwnershipType
  ownership_percentage : Option Nat
  is_primary_contact : Bool
deriving DecidableEq, Repr

/-- An uploaded file: Django gives the validators its name and size. -/
structure FileUpload where
  name : String
  size : Nat
deriving DecidableEq, Repr

/-- KYCSubmission.is_kyb_submission (models.py 236-239): a submission is
a KYB (business) submission when business_profile is set. -/
def KYCSubmission.is_kyb_submission (s : KYCSubmission) : Bool :=
  s.business_profile.isSome

/-- KYCSubmission.get_required_documents (models.py 241-256): filter the
catalog by is_active, is_required and the applicable_to axis picked from
whether this is a KYB submission.  (The source does not consult
required_roles here.) -/
def KYCSubmission.get_required_documents (catalog : List DocumentType)
    (s : KYCSubmission) : List DocumentType :=
  if s.is_kyb_submission then
    catalog.filter (fun dt => dt.is_active && dt.is_required &&
      (dt.applicable_to == ApplicableTo.business || dt.applicable_to == ApplicableTo.both))
  else
    catalog.filter (fun dt => dt.is_active && dt.is_required &&
      (dt.applicable_to == ApplicableTo.individual || dt.applicable_to == ApplicableTo.both))

/-- DocumentType.is_applicable_for_user (models.py 176-199): active,
account-type axis matches, and when required_roles is non-empty the
user's role ids intersect it. -/
def DocumentType.is_applicable_for_user (dt : DocumentType)
    (account_type : AccountType) (user_roles : List Nat) : Bool :=
  if !dt.is_active then false
  else if account_type == AccountType.business &&
      !(dt.applicable_to == ApplicableTo.business || dt.applicable_to == ApplicableTo.both) then
    false
  else if account_type == AccountType.individual &&
      !(dt.applicable_to == ApplicableTo.individual || dt.applicable_to == ApplicableTo.both) then
    false
  else if !dt.required_roles.isEmpty &&
      !(dt.required_roles.any (fun r => user_roles.contains r)) then
    false
  else true

/-- Claimed resolver membership, following the claim's words: active,
required, axis matches (both always matches), and when required_roles is
non-empty it intersects the context's role set.  Written from the spec
for comparison with the source's get_required_documents. -/
def claimedResolverContains (dt : DocumentType) (is_business : Bool)
    (roles : List Nat) : Bool :=
  dt.is_active && dt.is_required &&
    (match dt.applicable_to with
     | ApplicableTo.both => true
     | ApplicableTo.business => is_business
     | ApplicableTo.individual => !is_business) &&
    (dt.required_roles.isEmpty || dt.required_roles.any (fun r => roles.contains r))

/-- Example catalog entry used in counterexamples: active, required,
applicable to both, but restricted to role 1. -/
def dtRoleRestricted : DocumentType :=
  { id := 1, name := "Seller License", applicable_to := ApplicableTo.both,
    is_active := true, is_required := true, required_roles := [1],
    max_file_size_mb := 10, allowed_file_types := [] }

/-- Individual submission used in counterexamples. -/
def subIndividual : KYCSubmission :=
  { id := 10, user_id := 1, business_profile := none,
    status := SubStatus.pending, submitted_at := none }

/-- Signal update_user_kyc_status (models.py 337-350): after a
KYCSubmission save, the user's flag becomes true when the saved
submission is approved; when it is not approved and the flag was true,
the flag is cleared unless some approved submission remains.  Returns
the new is_kyc_verified value. -/
def update_user_kyc_status (submissions : List KYCSubmission)
    (saved : KYCSubmission) (user_flag : Bool) : Bool :=
  if saved.status == SubStatus.approved && !user_flag then true
  else if saved.status != SubStatus.approved && user_flag then
    if submissions.any (fun s => s.user_id == saved.user_id &&
        s.status == SubStatus.approved) then
      user_flag
    else false
  else user_flag

/-- The approved_docs queryset of the document signal (models.py
363-367): documents of the saved document's submission whose type is in
the required set and whose status is approved. -/
def approved_required_docs (catalog : List DocumentType)
    (docs : List KYCDocument) (sub : KYCSubmission) : List KYCDocument :=
  docs.filter (fun d =>
    d.submission_id == sub.id &&
    ((KYCSubmission.get_required_documents catalog sub).any
      (fun dt => dt.id == d.document_type_id) &&
     d.status == DocStatus.approved))

/-- Signal update_kyc_verification_on_document_change (models.py
353-377): after a KYCDocument save, compare the count of approved
required documents on that document's submission with the count of
required types, and set the flag accordingly.  Returns the new
is_kyc_verified value. -/
def update_kyc_verification_on_document_change (catalog : List DocumentType)
    (docs : List KYCDocument) (sub : KYCSubmission) (user_flag : Bool) : Bool :=
  let required_docs := KYCSubmission.get_required_documents catalog sub
  let approved_docs := approved_required_docs catalog docs sub
  if (approved_docs.length == required_docs.length) && !user_flag then true
  else if !(approved_docs.length == required_docs.length) && user_flag then false
  else user_flag

/-- The claimed aggregation rule, following the spec's words: the flag
is true iff at least one of the user's submissions has its full
required-document set consisting entirely of types with an approved
document on that submission.  Written from the spec for comparison with
the signals above. -/
def claimedKycVerified (catalog : List DocumentType)
    (submissions : List KYCSubmission) (documents : List KYCDocument)
    (user_id : Nat) : Bool :=
  submissions.any (fun s => s.user_id == user_id &&
    (KYCSubmission.get_required_documents catalog s).all (fun dt =>
      documents.any (fun d => d.submission_id == s.id &&
        d.document_type_id == dt.id && d.status == DocStatus.approved)))

/-- Active, required individual document type used in examples. -/
def dtPassport : DocumentType :=
  { id := 2, name := "Passport", applicable_to := ApplicableTo.individual,
    is_active := true, is_required := true, required_roles := [],
    max_file_size_mb := 10, allowed_file_types := [] }

/-- An approved submission with no documents, used in examples. -/
def subApproved : KYCSubmission :=
  { id := 11, user_id := 1, business_profile := none,
    status := SubStatus.approved, submitted_at := none }

/-- KYCSubmission.has_all_required_documents (models.py 258-263): the
required type ids are a subset of the type ids attached to the
submission. -/
def KYCSubmission.has_all_required_documents (catalog : List DocumentType)
    (docs : List KYCDocument) (s : KYCSubmission) : Bool :=
  ((KYCSubmission.get_required_documents catalog s).map (fun dt => dt.id)).all
    (fun i => ((docs.filter (fun d => d.submission_id == s.id)).map
      (fun d => d.document_type_id)).contains i)

/-- Outcome of the submit-for-review action (views.py 157-182). -/
inductive SubmitReviewResult
  | notPending
  | missingRequired (missing : List String)
  | ok (updated : KYCSubmission) (dispatched_submission : Nat)
deriving DecidableEq, Repr

/-- KYCSubmissionViewSet.submit_for_review (views.py 157-182): guard on
pending status, then on attachment of all required types; on failure
report the names of missing required types computed via the set
difference of type ids; on success set submitted_at, move to in_review
and dispatch verify_kyc_submission with the submission id. -/
def submit_for_review (catalog : List DocumentType) (docs : List KYCDocument)
    (now : Nat) (s : KYCSubmission) : SubmitReviewResult :=
  if s.status != SubStatus.pending then SubmitReviewResult.notPending
  else if !(KYCSubmission.has_all_required_documents catalog docs s) then
    SubmitReviewResult.missingRequired
      (((KYCSubmission.get_required_documents catalog s).filter (fun dt =>
        (((KYCSubmission.get_required_documents catalog s).map (fun t => t.id)).filter
          (fun i => !(((docs.filter (fun d => d.submission_id == s.id)).map
            (fun d => d.document_type_id)).contains i))).contains dt.id)).map
        (fun dt => dt.name))
  else
    SubmitReviewResult.ok
      { s with status := SubStatus.in_review, submitted_at := some now } s.id

/-- A pending Passport document attached to subIndividual. -/
def docPassport : KYCDocument :=
  { id := 100, submission_id := 10, document_type_id := 2,
    status := DocStatus.pending, file_size_bytes := some 4,
    file_hash := none }

/-- Errors of the submission-creation guards (views.py 115-118 and
253-282), named per the spec's error taxonomy. -/
inductive CreateError
  | duplicateActiveSubmission
  | permissionDenied
deriving DecidableEq, Repr

/-- KYCSubmissionViewSet.perform_create (views.py 115-118): refuse when
the user already has a pending or in-review submission, else append a
new pending submission. -/
def perform_create (submissions : List KYCSubmission) (user_id : Nat)
    (new_id : Nat) : Except CreateError (List KYCSubmission) :=
  if submissions.any (fun s => s.user_id == user_id &&
      (s.status == SubStatus.pending || s.status == SubStatus.in_review)) then
    Except.error CreateError.duplicateActiveSubmission
  else
    Except.ok (submissions ++
      [{ id := new_id, user_id := user_id, business_profile := none,
         status := SubStatus.pending, submitted_at := none }])

/-- BusinessProfileViewSet.create_kyb_submission (views.py 253-282):
permission guard, then refuse when the business already has a pending or
in-review submission, else append a new pending KYB submission. -/
def create_kyb_submission (owners : List BusinessOwner)
    (submissions : List KYCSubmission) (business_id : Nat)
    (actor : Nat) (actor_is_admin : Bool) (new_id : Nat) :
    Except CreateError (List KYCSubmission) :=
  if !(actor_is_admin || owners.any (fun o => o.business_id == business_id &&
      o.user_id == actor)) then
    Except.error CreateError.permissionDenied
  else if submissions.any (fun s => s.business_profile == some business_id &&
      (s.status == SubStatus.pending || s.status == SubStatus.in_review)) then
    Except.error CreateError.duplicateActiveSubmission
  else
    Except.ok (submissions ++
      [{ id := new_id, user_id := actor, business_profile := some business_id,
         status := SubStatus.pending, submitted_at := none }])

/-- A primary-contact owner row used in examples. -/
def ownerAlice : BusinessOwner :=
  { business_id := 3, user_id := 1, ownership_type := OwnershipType.owner,
    ownership_percentage := none, is_primary_contact := true }

/-- The KYB submission row created in the C4 witness. -/
def subKybNew : KYCSubmission :=
  { id := 6, user_id := 1, business_profile := some 3,
    status := SubStatus.pending, submitted_at := none }

deriving instance DecidableEq for Except

/-- Errors of the document upload pipeline (serializers.py 88-131,
views.py 128-155, models.py 307-332), named per the spec's taxonomy. -/
inductive UploadError
  | submissionNotEditable
  | invalidDocumentTypeId
  | fileTooLarge
  | fileTypeNotAllowed
  | documentTypeNotApplicable
deriving DecidableEq, Repr

/-- ASCII lowercase of one character (the file names handled by the
validators are ASCII extensions). -/
def lowerChar (c : Char) : Char :=
  if c.toNat ≥ 65 ∧ c.toNat ≤ 90 then Char.ofNat (c.toNat + 32) else c

/-- Python str.lower restricted to ASCII. -/
def lowercase (s : String) : String :=
  String.mk (s.data.map lowerChar)

/-- The characters after the last dot; the whole name when it has no
dot (Python list semantics of name.split with separator dot, last
element). -/
def afterLastDot (cs : List Char) : List Char :=
  cs.foldl (fun acc c => if c == '.' then [] else acc ++ [c]) []

/-- file_extension as computed at serializers.py 123 and models.py 326:
lowercased suffix after the last dot. -/
def file_extension (name : String) : String :=
  lowercase (String.mk (afterLastDot name.data))

/-- KYCDocumentUploadSerializer.validate_file (serializers.py 102-131):
look up the document type, then enforce the size bound and, when
allowed_file_types is non-empty, the lowercased-extension allowlist. -/
def KYCDocumentUploadSerializer.validate_file (catalog : List DocumentType)
    (document_type_id : Nat) (file : FileUpload) : Except UploadError Unit :=
  match catalog.find? (fun dt => dt.id == document_type_id) with
  | none => Except.error UploadError.invalidDocumentTypeId
  | some dt =>
    if file.size > dt.max_file_size_mb * 1024 * 1024 then
      Except.error UploadError.fileTooLarge
    else if !dt.allowed_file_types.isEmpty &&
        !((dt.allowed_file_types.map (fun e => lowercase e)).contains
          (file_extension file.name)) then
      Except.error UploadError.fileTypeNotAllowed
    else Except.ok ()

/-- KYCDocument._validate_file (models.py 313-332): the same size and
extension checks run again in the save path; on success the stored
file_size_bytes is the file's size. -/
def KYCDocument.validate_file_model (dt : DocumentType) (file : FileUpload) :
    Except UploadError Nat :=
  if file.size > dt.max_file_size_mb * 1024 * 1024 then
    Except.error UploadError.fileTooLarge
  else if !dt.allowed_file_types.isEmpty &&
      !((dt.allowed_file_types.map (fun e => lowercase e)).contains
        (file_extension file.name)) then
    Except.error UploadError.fileTypeNotAllowed
  else Except.ok file.size

/-- KYCDocument.save (models.py 307-311, 330-332): validate the file,
then persist the row with file_size_bytes recorded; no file_hash is
computed (models.py 332 leaves it for a real implementation). -/
def KYCDocument.save (dt : DocumentType) (file : FileUpload)
    (submission_id new_id : Nat) : Except UploadError KYCDocument :=
  match KYCDocument.validate_file_model dt file with
  | Except.error e => Except.error e
  | Except.ok size =>
    Except.ok { id := new_id, submission_id := submission_id,
                document_type_id := dt.id, status := DocStatus.pending,
                file_size_bytes := some size, file_hash := none }

/-- The applicability test of the upload view (views.py 142-145): the
uploading user's account type against the type's applicable_to. -/
def account_type_matches (account_type : AccountType) (app : ApplicableTo) : Bool :=
  (account_type == AccountType.individual &&
    (app == ApplicableTo.individual || app == ApplicableTo.both)) ||
  (account_type == AccountType.business &&
    (app == ApplicableTo.business || app == ApplicableTo.both))

/-- KYCSubmissionViewSet.upload_document (views.py 128-155): pending
guard, serializer validation (active type id, then file checks),
applicability against the requesting user's profile account_type, then
creation through KYCDocument.save. -/
def upload_document (catalog : List DocumentType) (submission : KYCSubmission)
    (account_type : AccountType) (document_type_id : Nat) (file : FileUpload)
    (new_id : Nat) : Except UploadError KYCDocument :=
  if submission.status != SubStatus.pending then
    Except.error UploadError.submissionNotEditable
  else if !(catalog.any (fun dt => dt.id == document_type_id && dt.is_active)) then
    Except.error UploadError.invalidDocumentTypeId
  else
    match KYCDocumentUploadSerializer.validate_file catalog document_type_id file with
    | Except.error e => Except.error e
    | Except.ok _ =>
      match catalog.find? (fun dt => dt.id == document_type_id) with
      | none => Except.error UploadError.invalidDocumentTypeId
      | some doc_type =>
        if !(account_type_matches account_type doc_type.applicable_to) then
          Except.error UploadError.documentTypeNotApplicable
        else
          KYCDocument.save doc_type file submission.id new_id

/-- Business-only, active, required document type used in examples. -/
def dtGst : DocumentType :=
  { id := 3, name := "GST Certificate", applicable_to := ApplicableTo.business,
    is_active := true, is_required := true, required_roles := [],
    max_file_size_mb := 10, allowed_file_types := [] }

/-- A pending KYB submission (business_profile present) whose creating
user has an individual profile, used in examples. -/
def subKyb : KYCSubmission :=
  { id := 12, user_id := 1, business_profile := some 3,
    status := SubStatus.pending, submitted_at := none }

/-- A small valid file used in examples. -/
def fileSmall : FileUpload := { name := "gst.pdf", size := 100 }

/-- A photo type with a 1MB limit and a jpg/PNG allowlist. -/
def dtPhoto : DocumentType :=
  { id := 4, name := "Selfie", applicable_to := ApplicableTo.both,
    is_active := true, is_required := true, required_roles := [],
    max_file_size_mb := 1, allowed_file_types := ["jpg", "PNG"] }

/-- A file one byte over dtPhoto's 1MB limit. -/
def fileBig : FileUpload := { name := "selfie.jpg", size := 1048577 }

/-- A small file with a disallowed extension for dtPhoto. -/
def fileExe : FileUpload := { name := "selfie.EXE", size := 10 }

/-- A small passport file used in examples. -/
def filePassport : FileUpload := { name := "passport.pdf", size := 4 }

/-- The document row produced by the C7 counterexample upload. -/
def docSavedPassport : KYCDocument :=
  { id := 100, submission_id := 10, document_type_id := 2,
    status := DocStatus.pending, file_size_bytes := some 4, file_hash := none }

/-- Errors of the add-owner action (views.py 212-251), named per the
spec's taxonomy. -/
inductive AddOwnerError
  | permissionDenied
  | alreadyOwner
deriving DecidableEq, Repr

/-- BusinessProfileViewSet.perform_create (views.py 202-210): the
creator of a business becomes its owner and primary contact. -/
def business_perform_create (owners : List BusinessOwner) (business_id : Nat)
    (creator : Nat) : List BusinessOwner :=
  owners ++ [{ business_id := business_id, user_id := creator,
               ownership_type := OwnershipType.owner,
               ownership_percentage := none, is_primary_contact := true }]

/-- BusinessProfileViewSet.add_owner (views.py 212-251): the actor must
be admin or a primary-contact owner; an existing owner cannot be added
again; when the new owner is primary, every existing owner of the
business is first stripped of the primary flag. -/
def add_owner (owners : List BusinessOwner) (business_id : Nat)
    (actor : Nat) (actor_is_admin : Bool) (new_user : Nat)
    (otype : OwnershipType) (pct : Option Nat) (is_primary : Bool) :
    Except AddOwnerError (List BusinessOwner) :=
  if !(actor_is_admin || owners.any (fun o => o.business_id == business_id &&
      o.user_id == actor && o.is_primary_contact)) then
    Except.error AddOwnerError.permissionDenied
  else if owners.any (fun o => o.business_id == business_id &&
      o.user_id == new_user) then
    Except.error AddOwnerError.alreadyOwner
  else
    Except.ok ((if is_primary then
        owners.map (fun o => if o.business_id == business_id then
          { o with is_primary_contact := false } else o)
      else owners) ++
      [{ business_id := business_id, user_id := new_user,
         ownership_type := otype, ownership_percentage := pct,
         is_primary_contact := is_primary }])

/-- Number of primary-contact owners a business has. -/
def primary_count (owners : List BusinessOwner) (business_id : Nat) : Nat :=
  List.countP (fun o => o.business_id == business_id && o.is_primary_contact) owners

/-- One add-owner request as received by the view. -/
structure AddOwnerRequest where
  business_id : Nat
  actor : Nat
  actor_is_admin : Bool
  new_user : Nat
  otype : OwnershipType
  pct : Option Nat
  is_primary : Bool
deriving DecidableEq, Repr

/-- Apply one add-owner request; a rejected request leaves the rows
unchanged (the view returns an error before any write). -/
def run_add_owner (owners : List BusinessOwner) (r : AddOwnerRequest) :
    List BusinessOwner :=
  match add_owner owners r.business_id r.actor r.actor_is_admin r.new_user
      r.otype r.pct r.is_primary with
  | Except.ok os => os
  | Except.error _ => owners

/-- Apply a sequence of add-owner requests. -/
def run_add_owners (owners : List BusinessOwner)
    (reqs : List AddOwnerRequest) : List BusinessOwner :=
  reqs.foldl run_add_owner owners

/-- An AbstractToken row (models.py 381-408), shared by
EmailVerificationToken and PasswordResetToken. -/
structure AbstractToken where
  user_id : Nat
  token : String
  is_used : Bool
  expires_at : Nat
deriving DecidableEq, Repr

/-- AbstractToken.is_expired (models.py 401-404): now strictly after
expires_at. -/
def AbstractToken.is_expired (t : AbstractToken) (now : Nat) : Bool :=
  decide (now > t.expires_at)

/-- AbstractToken.is_valid (models.py 406-408): unused and not
expired. -/
def AbstractToken.is_valid (t : AbstractToken) (now : Nat) : Bool :=
  !t.is_used && !(t.is_expired now)

/-- Errors of the token redemption views (views.py 297-315 and
332-350), named per the spec's taxonomy. -/
inductive TokenError
  | invalidOrUsedToken
  | tokenExpired
deriving DecidableEq, Repr

/-- A user row carrying its password, for the reset flow. -/
structure Credential where
  user_id : Nat
  password : String
deriving DecidableEq, Repr

/-- A user row carrying its email-verified flag. -/
structure EmailFlag where
  user_id : Nat
  is_email_verified : Bool
deriving DecidableEq, Repr

/-- password_reset_confirm (views.py 332-350): look up an unused token
by value (unknown or used → InvalidOrUsedToken), refuse an expired one
(TokenExpired) with no effect, else set the user's password and mark
the token used. -/
def password_reset_confirm (tokens : List AbstractToken)
    (users : List Credential) (now : Nat) (tok : String)
    (new_password : String) :
    Except TokenError (List AbstractToken × List Credential) :=
  match tokens.find? (fun t => t.token == tok && !t.is_used) with
  | none => Except.error TokenError.invalidOrUsedToken
  | some t =>
    if t.is_expired now then Except.error TokenError.tokenExpired
    else
      Except.ok
        (tokens.map (fun t0 => if t0.token == tok then
            { t0 with is_used := true } else t0),
         users.map (fun u => if u.user_id == t.user_id then
            { u with password := new_password } else u))

/-- confirm_email_verification (views.py 297-315): the same token
protocol; the effect marks the user's email verified and the token
used. -/
def confirm_email_verification (tokens : List AbstractToken)
    (users : List EmailFlag) (now : Nat) (tok : String) :
    Except TokenError (List AbstractToken × List EmailFlag) :=
  match tokens.find? (fun t => t.token == tok && !t.is_used) with
  | none => Except.error TokenError.invalidOrUsedToken
  | some t =>
    if t.is_expired now then Except.error TokenError.tokenExpired
    else
      Except.ok
        (tokens.map (fun t0 => if t0.token == tok then
            { t0 with is_used := true } else t0),
         users.map (fun u => if u.user_id == t.user_id then
            { u with is_email_verified := true } else u))

/-- An unused token expiring at time 5, used in examples. -/
def tokenBoundary : AbstractToken :=
  { user_id := 1, token := "tk", is_used := false, expires_at := 5 }

/-- A user row carrying its email, for the reset-request flow. -/
structure EmailUser where
  user_id : Nat
  email : String
deriving DecidableEq, Repr

/-- The HTTP-visible outcome and the internal side effects of a
password-reset request. -/
structure ResetRequestOutcome where
  response_detail : String
  http_status : Nat
  tokens_created : List Nat
  emails_sent : List String
deriving DecidableEq, Repr

/-- password_reset_request (views.py 318-329): find the user by email;
when present create a reset token for them and queue the reset email;
respond with the same message and 200 status either way. -/
def password_reset_request (users : List EmailUser) (email : String) :
    ResetRequestOutcome :=
  match users.find? (fun u => u.email == email) with
  | some u =>
    { response_detail := "If the email exists, a reset link has been sent.",
      http_status := 200, tokens_created := [u.user_id],
      emails_sent := [u.email] }
  | none =>
    { response_detail := "If the email exists, a reset link has been sent.",
      http_status := 200, tokens_created := [], emails_sent := [] }

/-- C2 counterexample: a catalog entry whose non-empty required_roles
([1]) is disjoint from the context's role set ([2]) is nevertheless
returned by get_required_documents, while the claimed resolver excludes
it: the source's resolver ignores required_roles. -/
theorem C2_counterexample :
    dtRoleRestricted ∈ KYCSubmission.get_required_documents [dtRoleRestricted] subIndividual ∧
    claimedResolverContains dtRoleRestricted subIndividual.is_kyb_submission [2] = false := by
  decide

/-- C2 amended: the resolver's result contains exactly the catalog
entries that are active, required and whose applicable_to matches the
submission's individual/business axis (both always matches); membership
never depends on required_roles, and inactive or not-required types are
never included. -/
theorem C2_get_required_documents_characterization
    (catalog : List DocumentType) (s : KYCSubmission) (dt : DocumentType) :
    dt ∈ KYCSubmission.get_required_documents catalog s ↔
      dt ∈ catalog ∧ dt.is_active = true ∧ dt.is_required = true ∧
      (if s.is_kyb_submission then
         dt.applicable_to = ApplicableTo.business ∨ dt.applicable_to = ApplicableTo.both
       else
         dt.applicable_to = ApplicableTo.individual ∨ dt.applicable_to = ApplicableTo.both) := by
  unfold KYCSubmission.get_required_documents
  cases h : s.is_kyb_submission <;>
    simp [h, List.mem_filter] <;> tauto

/-- C1 counterexample: a submission reaches status approved while its
only required document type (Passport) has no approved document; the
submission signal nevertheless sets the user's flag true, while the
claimed rule evaluates to false. -/
theorem C1_counterexample :
    update_user_kyc_status [subApproved] subApproved false = true ∧
    claimedKycVerified [dtPassport] [subApproved] [] 1 = false := by
  decide

/-- Boolean shape of the document signal: a latch driven by the count
comparison ignores the previous flag. -/
theorem latch_bool (c f : Bool) :
    (if c && !f then (true : Bool) else if !c && f then false else f) = c := by
  cases c <;> cases f <;> rfl

/-- Boolean shape of the submission signal. -/
theorem aggregator_bool (a b f : Bool) :
    (if a && !f then (true : Bool)
     else if !a && f then (if b then f else false) else f) = (a || (f && b)) := by
  cases a <;> cases b <;> cases f <;> rfl

/-- Filtering by a conjunction equals filtering in two stages. -/
theorem filter_and_eq {α : Type} (l : List α) (p q : α → Bool) :
    l.filter (fun a => p a && q a) = (l.filter p).filter q := by
  rw [List.filter_filter]
  exact (List.filter_congr (fun a _ => Bool.and_comm (q a) (p a))).symm

/-- The document signal's result does not depend on the previous flag:
it always equals the count comparison. -/
theorem doc_signal_eq (catalog : List DocumentType) (docs : List KYCDocument)
    (sub : KYCSubmission) (flag : Bool) :
    update_kyc_verification_on_document_change catalog docs sub flag =
      ((approved_required_docs catalog docs sub).length ==
       (KYCSubmission.get_required_documents catalog sub).length) := by
  unfold update_kyc_verification_on_document_change
  exact latch_bool ((approved_required_docs catalog docs sub).length ==
    (KYCSubmission.get_required_documents catalog sub).length) flag

/-- With unique catalog ids and unique document types per submission,
the count comparison of the document signal holds iff every required
type has an approved document on the submission. -/
theorem approved_count_iff (catalog : List DocumentType)
    (docs : List KYCDocument) (sub : KYCSubmission)
    (hcat : (catalog.map (fun dt => dt.id)).Nodup)
    (hdocs : ((docs.filter (fun d => d.submission_id == sub.id)).map
        (fun d => d.document_type_id)).Nodup) :
    (approved_required_docs catalog docs sub).length =
        (KYCSubmission.get_required_documents catalog sub).length ↔
      ∀ dt ∈ KYCSubmission.get_required_documents catalog sub,
        ∃ d ∈ docs, d.submission_id = sub.id ∧ d.document_type_id = dt.id ∧
          d.status = DocStatus.approved := by
  have hreq : ((KYCSubmission.get_required_documents catalog sub).map
      (fun dt => dt.id)).Nodup := by
    refine List.Nodup.sublist (List.Sublist.map _ ?_) hcat
    unfold KYCSubmission.get_required_documents
    cases sub.is_kyb_submission <;> simp [List.filter_sublist]
  have hTA : ((approved_required_docs catalog docs sub).map
      (fun d => d.document_type_id)).Nodup := by
    refine List.Nodup.sublist (List.Sublist.map _ ?_) hdocs
    unfold approved_required_docs
    rw [filter_and_eq]
    exact List.filter_sublist _
  have hsub : ∀ x ∈ (approved_required_docs catalog docs sub).map
      (fun d => d.document_type_id),
      x ∈ (KYCSubmission.get_required_documents catalog sub).map
        (fun dt => dt.id) := by
    intro x hx
    rcases List.mem_map.mp hx with ⟨d, hd, hdx⟩
    rcases List.mem_filter.mp hd with ⟨_, hp⟩
    rcases Bool.and_eq_true .. |>.mp hp with ⟨_, hrest⟩
    rcases Bool.and_eq_true .. |>.mp hrest with ⟨hany, _⟩
    rcases List.any_eq_true.mp hany with ⟨dt, hdt, hid⟩
    exact hdx ▸ (beq_iff_eq.mp hid) ▸ List.mem_map.mpr ⟨dt, hdt, rfl⟩
  have hlenA : (approved_required_docs catalog docs sub).length =
      ((approved_required_docs catalog docs sub).map
        (fun d => d.document_type_id)).toFinset.card := by
    rw [List.toFinset_card_of_nodup hTA, List.length_map]
  have hlenR : (KYCSubmission.get_required_documents catalog sub).length =
      ((KYCSubmission.get_required_documents catalog sub).map
        (fun dt => dt.id)).toFinset.card := by
    rw [List.toFinset_card_of_nodup hreq, List.length_map]
  have hsubF : ((approved_required_docs catalog docs sub).map
      (fun d => d.document_type_id)).toFinset ⊆
      ((KYCSubmission.get_required_documents catalog sub).map
        (fun dt => dt.id)).toFinset := by
    intro x hx
    exact List.mem_toFinset.mpr (hsub x (List.mem_toFinset.mp hx))
  constructor
  · intro hlen dt hdt
    have hcard : ((KYCSubmission.get_required_documents catalog sub).map
        (fun dt => dt.id)).toFinset.card ≤
        ((approved_required_docs catalog docs sub).map
          (fun d => d.document_type_id)).toFinset.card := by
      rw [← hlenA, ← hlenR, hlen]
    have heq := Finset.eq_of_subset_of_card_le hsubF hcard
    have hid : dt.id ∈ ((approved_required_docs catalog docs sub).map
        (fun d => d.document_type_id)).toFinset := by
      rw [heq]
      exact List.mem_toFinset.mpr (List.mem_map.mpr ⟨dt, hdt, rfl⟩)
    rcases List.mem_map.mp (List.mem_toFinset.mp hid) with ⟨d, hd, hdx⟩
    rcases List.mem_filter.mp hd with ⟨hmem, hp⟩
    rcases Bool.and_eq_true .. |>.mp hp with ⟨hsid, hrest⟩
    rcases Bool.and_eq_true .. |>.mp hrest with ⟨_, happ⟩
    exact ⟨d, hmem, beq_iff_eq.mp hsid, hdx, beq_iff_eq.mp happ⟩
  · intro hcov
    have hsupF : ((KYCSubmission.get_required_documents catalog sub).map
        (fun dt => dt.id)).toFinset ⊆
        ((approved_required_docs catalog docs sub).map
          (fun d => d.document_type_id)).toFinset := by
      intro x hx
      rcases List.mem_map.mp (List.mem_toFinset.mp hx) with ⟨dt, hdt, hdx⟩
      rcases hcov dt hdt with ⟨d, hd, hds, hdty, hda⟩
      have hdA : d ∈ approved_required_docs catalog docs sub := by
        refine List.mem_filter.mpr ⟨hd, ?_⟩
        refine Bool.and_eq_true .. |>.mpr ⟨beq_iff_eq.mpr hds, ?_⟩
        refine Bool.and_eq_true .. |>.mpr ⟨?_, beq_iff_eq.mpr hda⟩
        exact List.any_eq_true.mpr ⟨dt, hdt, beq_iff_eq.mpr hdty.symm⟩
      refine List.mem_toFinset.mpr (List.mem_map.mpr ⟨d, hdA, ?_⟩)
      rw [hdty, hdx]
    have heq := Finset.Subset.antisymm hsubF hsupF
    rw [hlenA, hlenR, heq]

/-- C1 amended: the submission signal sets the flag true whenever the
saved submission is approved (regardless of document statuses), and
otherwise keeps it true only while some approved submission of the user
remains; the document signal (on catalogs with unique ids and
submissions with unique document types) sets the flag true iff every
required type of the saved document's submission has an approved
document on that submission — only that one submission is consulted. -/
theorem C1_aggregator_amended :
    (∀ (submissions : List KYCSubmission) (saved : KYCSubmission) (flag : Bool),
        update_user_kyc_status submissions saved flag =
          (saved.status == SubStatus.approved ||
            (flag && submissions.any (fun s =>
              s.user_id == saved.user_id && s.status == SubStatus.approved)))) ∧
    (∀ (catalog : List DocumentType) (docs : List KYCDocument)
        (sub : KYCSubmission) (flag : Bool),
        (catalog.map (fun dt => dt.id)).Nodup →
        ((docs.filter (fun d => d.submission_id == sub.id)).map
          (fun d => d.document_type_id)).Nodup →
        (update_kyc_verification_on_document_change catalog docs sub flag = true ↔
          ∀ dt ∈ KYCSubmission.get_required_documents catalog sub,
            ∃ d ∈ docs, d.submission_id = sub.id ∧ d.document_type_id = dt.id ∧
              d.status = DocStatus.approved)) := by
  constructor
  · intro submissions saved flag
    unfold update_user_kyc_status
    simp only [bne]
    exact aggregator_bool (saved.status == SubStatus.approved)
      (submissions.any fun s => s.user_id == saved.user_id &&
        s.status == SubStatus.approved) flag
  · intro catalog docs sub flag hcat hdocs
    rw [doc_signal_eq]
    rw [show ((approved_required_docs catalog docs sub).length ==
        (KYCSubmission.get_required_documents catalog sub).length) = true ↔
        (approved_required_docs catalog docs sub).length =
        (KYCSubmission.get_required_documents catalog sub).length from beq_iff_eq]
    exact approved_count_iff catalog docs sub hcat hdocs

/-- Witness for C1 amended at a concrete input. -/
theorem C1_aggregator_amended_witness :
    update_kyc_verification_on_document_change [dtPassport] [] subIndividual false = true ↔
      ∀ dt ∈ KYCSubmission.get_required_documents [dtPassport] subIndividual,
        ∃ d ∈ ([] : List KYCDocument), d.submission_id = subIndividual.id ∧
          d.document_type_id = dt.id ∧ d.status = DocStatus.approved :=
  C1_aggregator_amended.2 [dtPassport] [] subIndividual false (by decide) (by decide)

/-- Bridge between List.contains and membership for Nat lists. -/
theorem contains_iff {a : Nat} {l : List Nat} : l.contains a = true ↔ a ∈ l :=
  List.elem_iff

/-- has_all_required_documents holds iff every required type has some
attached document on the submission (regardless of document status). -/
theorem has_all_required_documents_iff (catalog : List DocumentType)
    (docs : List KYCDocument) (s : KYCSubmission) :
    KYCSubmission.has_all_required_documents catalog docs s = true ↔
      ∀ dt ∈ KYCSubmission.get_required_documents catalog s,
        ∃ d ∈ docs, d.submission_id = s.id ∧ d.document_type_id = dt.id := by
  unfold KYCSubmission.has_all_required_documents
  rw [List.all_eq_true]
  constructor
  · intro hall dt hdt
    have hc := hall dt.id (List.mem_map.mpr ⟨dt, hdt, rfl⟩)
    rcases List.mem_map.mp (contains_iff.mp hc) with ⟨d, hd, hdx⟩
    rcases List.mem_filter.mp hd with ⟨hdm, hds⟩
    exact ⟨d, hdm, beq_iff_eq.mp hds, hdx⟩
  · intro hcov i hi
    rcases List.mem_map.mp hi with ⟨dt, hdt, hdx⟩
    rcases hcov dt hdt with ⟨d, hd, hds, hdty⟩
    refine contains_iff.mpr (List.mem_map.mpr
      ⟨d, List.mem_filter.mpr ⟨hd, beq_iff_eq.mpr hds⟩, ?_⟩)
    rw [hdty, hdx]

/-- The two-step missing-id computation of the view equals the direct
filter of required types without an attached document. -/
theorem missing_names_eq (catalog : List DocumentType) (docs : List KYCDocument)
    (s : KYCSubmission) :
    ((KYCSubmission.get_required_documents catalog s).filter (fun dt =>
      (((KYCSubmission.get_required_documents catalog s).map (fun t => t.id)).filter
        (fun i => !(((docs.filter (fun d => d.submission_id == s.id)).map
          (fun d => d.document_type_id)).contains i))).contains dt.id)) =
    ((KYCSubmission.get_required_documents catalog s).filter (fun dt =>
      !(((docs.filter (fun d => d.submission_id == s.id)).map
        (fun d => d.document_type_id)).contains dt.id))) := by
  apply List.filter_congr
  intro dt hdt
  cases hc : (((docs.filter (fun d => d.submission_id == s.id)).map
      (fun d => d.document_type_id)).contains dt.id) with
  | true =>
    apply Bool.eq_false_iff.mpr
    intro hmem
    rcases List.mem_filter.mp (contains_iff.mp hmem) with ⟨_, hpred⟩
    rw [hc] at hpred
    exact absurd hpred (by simp)
  | false =>
    refine contains_iff.mpr (List.mem_filter.mpr
      ⟨List.mem_map.mpr ⟨dt, hdt, rfl⟩, ?_⟩)
    rw [hc]
    rfl

/-- C3: for a pending submission, submit-for-review succeeds (moving to
in_review, stamping submitted_at and dispatching the verification task
with the submission's id) iff every required type for its context has an
attached document, regardless of document statuses; on failure it
reports exactly the names of the required types with no attached
document, and no updated submission is produced. -/
theorem C3_submit_for_review (catalog : List DocumentType)
    (docs : List KYCDocument) (now : Nat) (s : KYCSubmission)
    (h : s.status = SubStatus.pending) :
    ((∀ dt ∈ KYCSubmission.get_required_documents catalog s,
        ∃ d ∈ docs, d.submission_id = s.id ∧ d.document_type_id = dt.id) →
      submit_for_review catalog docs now s =
        SubmitReviewResult.ok
          { s with status := SubStatus.in_review, submitted_at := some now } s.id) ∧
    ((∃ dt ∈ KYCSubmission.get_required_documents catalog s,
        ∀ d ∈ docs, d.submission_id = s.id → d.document_type_id ≠ dt.id) →
      submit_for_review catalog docs now s =
        SubmitReviewResult.missingRequired
          (((KYCSubmission.get_required_documents catalog s).filter (fun dt =>
            !(((docs.filter (fun d => d.submission_id == s.id)).map
              (fun d => d.document_type_id)).contains dt.id))).map
            (fun dt => dt.name))) := by
  have hstatus : (s.status != SubStatus.pending) = false := by simp [h]
  constructor
  · intro hcov
    have hall : KYCSubmission.has_all_required_documents catalog docs s = true :=
      (has_all_required_documents_iff catalog docs s).mpr hcov
    unfold submit_for_review
    rw [hstatus, hall]
    rfl
  · intro hmiss
    have hall : KYCSubmission.has_all_required_documents catalog docs s = false := by
      apply Bool.eq_false_iff.mpr
      intro hc
      rcases hmiss with ⟨dt, hdt, hnone⟩
      rcases (has_all_required_documents_iff catalog docs s).mp hc dt hdt with
        ⟨d, hd, hds, hdty⟩
      exact hnone d hd hds hdty
    unfold submit_for_review
    rw [hstatus, hall, missing_names_eq]
    rfl

/-- Witness for C3 at a concrete input: with the single required type
attached (still pending review), submission succeeds. -/
theorem C3_submit_for_review_witness :
    submit_for_review [dtPassport] [docPassport] 5 subIndividual =
      SubmitReviewResult.ok
        { subIndividual with status := SubStatus.in_review, submitted_at := some 5 }
        subIndividual.id :=
  (C3_submit_for_review [dtPassport] [docPassport] 5 subIndividual rfl).1 (by decide)

/-- C4: creating a submission fails with DuplicateActiveSubmission and
produces no new state whenever an existing submission of the same user
(respectively the same business) is pending or in_review; otherwise it
succeeds, appending a new pending submission and leaving all existing
rows untouched. -/
theorem C4_create_guards :
    (∀ (submissions : List KYCSubmission) (u n : Nat),
      ((∃ s ∈ submissions, s.user_id = u ∧
          (s.status = SubStatus.pending ∨ s.status = SubStatus.in_review)) →
        perform_create submissions u n =
          Except.error CreateError.duplicateActiveSubmission) ∧
      ((∀ s ∈ submissions, s.user_id = u →
          s.status ≠ SubStatus.pending ∧ s.status ≠ SubStatus.in_review) →
        perform_create submissions u n =
          Except.ok (submissions ++
            [{ id := n, user_id := u, business_profile := none,
               status := SubStatus.pending, submitted_at := none }]))) ∧
    (∀ (owners : List BusinessOwner) (submissions : List KYCSubmission)
        (b actor n : Nat) (admin : Bool),
      (admin = true ∨ ∃ o ∈ owners, o.business_id = b ∧ o.user_id = actor) →
      ((∃ s ∈ submissions, s.business_profile = some b ∧
          (s.status = SubStatus.pending ∨ s.status = SubStatus.in_review)) →
        create_kyb_submission owners submissions b actor admin n =
          Except.error CreateError.duplicateActiveSubmission) ∧
      ((∀ s ∈ submissions, s.business_profile = some b →
          s.status ≠ SubStatus.pending ∧ s.status ≠ SubStatus.in_review) →
        create_kyb_submission owners submissions b actor admin n =
          Except.ok (submissions ++
            [{ id := n, user_id := actor, business_profile := some b,
               status := SubStatus.pending, submitted_at := none }]))) := by
  constructor
  · intro submissions u n
    constructor
    · intro hex
      have hany : (submissions.any (fun s => s.user_id == u &&
          (s.status == SubStatus.pending || s.status == SubStatus.in_review))) = true := by
        rcases hex with ⟨s, hs, hu, hst⟩
        refine List.any_eq_true.mpr ⟨s, hs, ?_⟩
        cases hst with
        | inl h1 => simp [hu, h1]
        | inr h1 => simp [hu, h1]
      unfold perform_create
      rw [hany]
      rfl
    · intro hall
      have hany : (submissions.any (fun s => s.user_id == u &&
          (s.status == SubStatus.pending || s.status == SubStatus.in_review))) = false := by
        apply Bool.eq_false_iff.mpr
        intro hc
        rcases List.any_eq_true.mp hc with ⟨s, hs, hp⟩
        rcases Bool.and_eq_true .. |>.mp hp with ⟨h1, h2⟩
        rcases hall s hs (beq_iff_eq.mp h1) with ⟨hnp, hnr⟩
        cases Bool.or_eq_true .. |>.mp h2 with
        | inl h3 => exact hnp (beq_iff_eq.mp h3)
        | inr h3 => exact hnr (beq_iff_eq.mp h3)
      unfold perform_create
      rw [hany]
      rfl
  · intro owners submissions b actor n admin hperm
    have hok : (!(admin || owners.any (fun o => o.business_id == b &&
        o.user_id == actor))) = false := by
      cases hperm with
      | inl h1 => simp [h1]
      | inr h1 =>
        rcases h1 with ⟨o, ho, hob, hou⟩
        have : (owners.any (fun o => o.business_id == b && o.user_id == actor)) = true :=
          List.any_eq_true.mpr ⟨o, ho, by simp [hob, hou]⟩
        simp [this]
    constructor
    · intro hex
      have hany : (submissions.any (fun s => s.business_profile == some b &&
          (s.status == SubStatus.pending || s.status == SubStatus.in_review))) = true := by
        rcases hex with ⟨s, hs, hb, hst⟩
        refine List.any_eq_true.mpr ⟨s, hs, ?_⟩
        cases hst with
        | inl h1 => simp [hb, h1]
        | inr h1 => simp [hb, h1]
      unfold create_kyb_submission
      rw [hok, hany]
      rfl
    · intro hall
      have hany : (submissions.any (fun s => s.business_profile == some b &&
          (s.status == SubStatus.pending || s.status == SubStatus.in_review))) = false := by
        apply Bool.eq_false_iff.mpr
        intro hc
        rcases List.any_eq_true.mp hc with ⟨s, hs, hp⟩
        rcases Bool.and_eq_true .. |>.mp hp with ⟨h1, h2⟩
        rcases hall s hs (beq_iff_eq.mp h1) with ⟨hnp, hnr⟩
        cases Bool.or_eq_true .. |>.mp h2 with
        | inl h3 => exact hnp (beq_iff_eq.mp h3)
        | inr h3 => exact hnr (beq_iff_eq.mp h3)
      unfold create_kyb_submission
      rw [hok, hany]
      rfl

/-- Witness for C4 at concrete inputs: a pending submission blocks a
second create for the same user; a business with no active submission
accepts a new pending KYB submission from one of its owners. -/
theorem C4_create_guards_witness :
    perform_create [subIndividual] 1 5 =
      Except.error CreateError.duplicateActiveSubmission ∧
    create_kyb_submission [ownerAlice] [] 3 1 false 6 =
      Except.ok [subKybNew] := by
  constructor
  · exact (C4_create_guards.1 [subIndividual] 1 5).1
      ⟨subIndividual, by decide, by decide, Or.inl (by decide)⟩
  · exact (C4_create_guards.2 [ownerAlice] [] 3 1 6 false
      (Or.inr ⟨ownerAlice, by decide, rfl, rfl⟩)).2 (by intro s hs; cases hs)

/-- C5 counterexample: for a pending KYB submission (business nature,
business_profile set), uploading a business-only type is rejected as
not applicable because the view tests the uploading user's profile
account_type (individual), not the submission's nature. -/
theorem C5_counterexample :
    subKyb.is_kyb_submission = true ∧
    dtGst.applicable_to = ApplicableTo.business ∧
    upload_document [dtGst] subKyb AccountType.individual 3 fileSmall 101 =
      Except.error UploadError.documentTypeNotApplicable := by
  decide

/-- A Bool equal to false is not true. -/
theorem not_true_of_eq_false {b : Bool} (h : b = false) : ¬ (b = true) := by
  rw [h]
  exact Bool.false_ne_true

/-- With the type found, the serializer's validate_file is the size
check followed by the extension check. -/
theorem validate_file_eq (catalog : List DocumentType) (dtid : Nat)
    (dt : DocumentType) (file : FileUpload)
    (hfind : catalog.find? (fun t => t.id == dtid) = some dt) :
    KYCDocumentUploadSerializer.validate_file catalog dtid file =
      (if file.size > dt.max_file_size_mb * 1024 * 1024 then
        Except.error UploadError.fileTooLarge
      else if !dt.allowed_file_types.isEmpty &&
          !((dt.allowed_file_types.map (fun e => lowercase e)).contains
            (file_extension file.name)) then
        Except.error UploadError.fileTypeNotAllowed
      else Except.ok ()) := by
  unfold KYCDocumentUploadSerializer.validate_file
  rw [hfind]

/-- With the pending guard and an active found type, upload_document is
the serializer check followed by the applicability check and the model
save. -/
theorem upload_document_eq (catalog : List DocumentType) (s : KYCSubmission)
    (acct : AccountType) (dtid : Nat) (dt : DocumentType) (file : FileUpload)
    (nid : Nat) (h : s.status = SubStatus.pending)
    (hfind : catalog.find? (fun t => t.id == dtid) = some dt)
    (hactive : dt.is_active = true) :
    upload_document catalog s acct dtid file nid =
      (match KYCDocumentUploadSerializer.validate_file catalog dtid file with
      | Except.error e => Except.error e
      | Except.ok _ =>
        if !(account_type_matches acct dt.applicable_to) then
          Except.error UploadError.documentTypeNotApplicable
        else KYCDocument.save dt file s.id nid) := by
  have hstatus : (s.status != SubStatus.pending) = false := by rw [h]; rfl
  have hpred0 := List.find?_some hfind
  have hpred : (dt.id == dtid) = true := hpred0
  have hany : (catalog.any (fun t => t.id == dtid && t.is_active)) = true :=
    List.any_eq_true.mpr ⟨dt, List.mem_of_find?_eq_some hfind,
      Bool.and_eq_true .. |>.mpr ⟨hpred, hactive⟩⟩
  unfold upload_document
  rw [hstatus, hany, hfind]
  rfl

/-- C5 amended: uploads to a non-pending submission fail with
SubmissionNotEditable; for a pending submission with an active found
type and a valid file, the upload succeeds iff the type's applicable_to
matches the uploading user's profile account_type (both always
matches) — not the submission's own individual/business nature — and is
independent of whether the type is in the required set. -/
theorem C5_upload_guards :
    (∀ (catalog : List DocumentType) (s : KYCSubmission) (acct : AccountType)
        (dtid : Nat) (file : FileUpload) (nid : Nat),
      s.status ≠ SubStatus.pending →
      upload_document catalog s acct dtid file nid =
        Except.error UploadError.submissionNotEditable) ∧
    (∀ (catalog : List DocumentType) (s : KYCSubmission) (acct : AccountType)
        (dtid : Nat) (dt : DocumentType) (file : FileUpload) (nid : Nat),
      s.status = SubStatus.pending →
      catalog.find? (fun t => t.id == dtid) = some dt →
      dt.is_active = true →
      ¬ (file.size > dt.max_file_size_mb * 1024 * 1024) →
      (!dt.allowed_file_types.isEmpty &&
        !((dt.allowed_file_types.map (fun e => lowercase e)).contains
          (file_extension file.name))) = false →
      ((account_type_matches acct dt.applicable_to = false →
          upload_document catalog s acct dtid file nid =
            Except.error UploadError.documentTypeNotApplicable) ∧
       (account_type_matches acct dt.applicable_to = true →
          upload_document catalog s acct dtid file nid =
            Except.ok { id := nid, submission_id := s.id,
                        document_type_id := dt.id, status := DocStatus.pending,
                        file_size_bytes := some file.size, file_hash := none }))) := by
  constructor
  · intro catalog s acct dtid file nid h
    have hstatus : (s.status != SubStatus.pending) = true := bne_iff_ne.mpr h
    unfold upload_document
    rw [hstatus]
    rfl
  · intro catalog s acct dtid dt file nid h hfind hactive hsize hext
    have hser : KYCDocumentUploadSerializer.validate_file catalog dtid file =
        Except.ok () := by
      rw [validate_file_eq catalog dtid dt file hfind, if_neg hsize,
        if_neg (not_true_of_eq_false hext)]
    constructor
    · intro hmatch
      have hnb : (!(account_type_matches acct dt.applicable_to)) = true := by
        rw [hmatch]
        rfl
      rw [upload_document_eq catalog s acct dtid dt file nid h hfind hactive,
        hser, hnb]
      rfl
    · intro hmatch
      have hnb : (!(account_type_matches acct dt.applicable_to)) = false := by
        rw [hmatch]
        rfl
      have hmodel : KYCDocument.validate_file_model dt file =
          Except.ok file.size := by
        unfold KYCDocument.validate_file_model
        rw [if_neg hsize, if_neg (not_true_of_eq_false hext)]
      rw [upload_document_eq catalog s acct dtid dt file nid h hfind hactive,
        hser, hnb]
      unfold KYCDocument.save
      rw [hmodel]
      rfl

/-- Witness for C5 at concrete inputs: upload to an approved submission
is refused; an individual-account upload of a both-applicable type to a
pending submission succeeds. -/
theorem C5_upload_guards_witness :
    upload_document [dtGst] subApproved AccountType.individual 3 fileSmall 102 =
      Except.error UploadError.submissionNotEditable ∧
    upload_document [dtGst] subKyb AccountType.business 3 fileSmall 103 =
      Except.ok { id := 103, submission_id := 12, document_type_id := 3,
                  status := DocStatus.pending, file_size_bytes := some 100,
                  file_hash := none } := by
  constructor
  · exact (C5_upload_guards.1 [dtGst] subApproved AccountType.individual 3
      fileSmall 102) (by decide)
  · exact ((C5_upload_guards.2 [dtGst] subKyb AccountType.business 3 dtGst
      fileSmall 103) rfl (by decide) rfl (by decide) (by decide)).2 (by decide)

/-- C6: both the serializer boundary and the model save path reject a
file strictly larger than max_file_size_mb megabytes with FileTooLarge
(and the upload pipeline then creates no document row), both reject a
disallowed lowercased extension when allowed_file_types is non-empty,
and an empty allowed_file_types imposes no extension restriction. -/
theorem C6_file_validation :
    (∀ (catalog : List DocumentType) (s : KYCSubmission) (acct : AccountType)
        (dtid : Nat) (dt : DocumentType) (file : FileUpload) (nid : Nat),
      catalog.find? (fun t => t.id == dtid) = some dt →
      file.size > dt.max_file_size_mb * 1024 * 1024 →
      KYCDocumentUploadSerializer.validate_file catalog dtid file =
          Except.error UploadError.fileTooLarge ∧
      KYCDocument.validate_file_model dt file =
          Except.error UploadError.fileTooLarge ∧
      (s.status = SubStatus.pending → dt.is_active = true →
        upload_document catalog s acct dtid file nid =
          Except.error UploadError.fileTooLarge)) ∧
    (∀ (catalog : List DocumentType) (dtid : Nat) (dt : DocumentType)
        (file : FileUpload),
      catalog.find? (fun t => t.id == dtid) = some dt →
      ¬ (file.size > dt.max_file_size_mb * 1024 * 1024) →
      dt.allowed_file_types ≠ [] →
      ((dt.allowed_file_types.map (fun e => lowercase e)).contains
        (file_extension file.name)) = false →
      KYCDocumentUploadSerializer.validate_file catalog dtid file =
          Except.error UploadError.fileTypeNotAllowed ∧
      KYCDocument.validate_file_model dt file =
          Except.error UploadError.fileTypeNotAllowed) ∧
    (∀ (catalog : List DocumentType) (dtid : Nat) (dt : DocumentType)
        (file : FileUpload),
      catalog.find? (fun t => t.id == dtid) = some dt →
      ¬ (file.size > dt.max_file_size_mb * 1024 * 1024) →
      dt.allowed_file_types = [] →
      KYCDocumentUploadSerializer.validate_file catalog dtid file = Except.ok () ∧
      KYCDocument.validate_file_model dt file = Except.ok file.size) := by
  refine ⟨?_, ?_, ?_⟩
  · intro catalog s acct dtid dt file nid hfind hsize
    refine ⟨?_, ?_, ?_⟩
    · rw [validate_file_eq catalog dtid dt file hfind, if_pos hsize]
    · unfold KYCDocument.validate_file_model
      rw [if_pos hsize]
    · intro h hactive
      rw [upload_document_eq catalog s acct dtid dt file nid h hfind hactive,
        validate_file_eq catalog dtid dt file hfind, if_pos hsize]
  · intro catalog dtid dt file hfind hsize hne hcontains
    have hempty : dt.allowed_file_types.isEmpty = false := by
      cases he : dt.allowed_file_types with
      | nil => exact absurd he hne
      | cons a t => rfl
    have hbool : (!dt.allowed_file_types.isEmpty &&
        !((dt.allowed_file_types.map (fun e => lowercase e)).contains
          (file_extension file.name))) = true := by
      rw [hempty, hcontains]
      rfl
    constructor
    · rw [validate_file_eq catalog dtid dt file hfind, if_neg hsize, if_pos hbool]
    · unfold KYCDocument.validate_file_model
      rw [if_neg hsize, if_pos hbool]
  · intro catalog dtid dt file hfind hsize hnil
    have hbool : (!dt.allowed_file_types.isEmpty &&
        !((dt.allowed_file_types.map (fun e => lowercase e)).contains
          (file_extension file.name))) = false := by
      rw [hnil]
      rfl
    constructor
    · rw [validate_file_eq catalog dtid dt file hfind, if_neg hsize,
        if_neg (not_true_of_eq_false hbool)]
    · unfold KYCDocument.validate_file_model
      rw [if_neg hsize, if_neg (not_true_of_eq_false hbool)]

/-- Witness for C6 at concrete inputs: the oversized file is rejected
at both layers and by the upload pipeline; the wrong extension is
rejected at both layers; an empty allowlist lets a small file pass. -/
theorem C6_file_validation_witness :
    KYCDocumentUploadSerializer.validate_file [dtPhoto] 4 fileBig =
        Except.error UploadError.fileTooLarge ∧
    KYCDocument.validate_file_model dtPhoto fileBig =
        Except.error UploadError.fileTooLarge ∧
    upload_document [dtPhoto] subIndividual AccountType.individual 4 fileBig 104 =
        Except.error UploadError.fileTooLarge ∧
    KYCDocumentUploadSerializer.validate_file [dtPhoto] 4 fileExe =
        Except.error UploadError.fileTypeNotAllowed ∧
    KYCDocument.validate_file_model dtPhoto fileExe =
        Except.error UploadError.fileTypeNotAllowed ∧
    KYCDocumentUploadSerializer.validate_file [dtGst] 3 fileSmall = Except.ok () ∧
    KYCDocument.validate_file_model dtGst fileSmall = Except.ok fileSmall.size := by
  have h1 := (C6_file_validation.1 [dtPhoto] subIndividual AccountType.individual
    4 dtPhoto fileBig 104) (by decide) (by decide)
  have h2 := (C6_file_validation.2.1 [dtPhoto] 4 dtPhoto fileExe)
    (by decide) (by decide) (by decide) (by decide)
  have h3 := (C6_file_validation.2.2 [dtGst] 3 dtGst fileSmall)
    (by decide) (by decide) (by decide)
  exact ⟨h1.1, h1.2.1, h1.2.2 rfl rfl, h2.1, h2.2, h3.1, h3.2⟩

/-- C7 counterexample: a concrete successful upload saves a row whose
file_hash is none — not the 64-character lowercase hex SHA-256 digest
of the file's content that the claim requires. -/
theorem C7_counterexample :
    upload_document [dtPassport] subIndividual AccountType.individual 2 filePassport 100 =
      Except.ok docSavedPassport ∧
    docSavedPassport.file_hash = none := by
  decide

/-- C7 amended: every successful upload saves a document whose
file_size_bytes equals the uploaded file's size and whose file_hash is
left unset — the save path computes no content hash. -/
theorem C7_saved_metadata (catalog : List DocumentType) (s : KYCSubmission)
    (acct : AccountType) (dtid : Nat) (file : FileUpload) (nid : Nat)
    (d : KYCDocument)
    (h : upload_document catalog s acct dtid file nid = Except.ok d) :
    d.file_size_bytes = some file.size ∧ d.file_hash = none := by
  unfold upload_document at h
  split at h
  · exact absurd h (by simp)
  · split at h
    · exact absurd h (by simp)
    · split at h
      · exact absurd h (by simp)
      · split at h
        · exact absurd h (by simp)
        · split at h
          · exact absurd h (by simp)
          · unfold KYCDocument.save at h
            split at h
            · exact absurd h (by simp)
            · rename_i size hsize
              unfold KYCDocument.validate_file_model at hsize
              split at hsize
              · exact absurd hsize (by simp)
              · split at hsize
                · exact absurd hsize (by simp)
                · cases hsize
                  cases h
                  exact ⟨rfl, rfl⟩

/-- Witness for C7 at a concrete input. -/
theorem C7_saved_metadata_witness :
    docSavedPassport.file_size_bytes = some filePassport.size ∧
    docSavedPassport.file_hash = none :=
  C7_saved_metadata [dtPassport] subIndividual AccountType.individual 2
    filePassport 100 docSavedPassport (by decide)

/-- Clearing the primary flags of a business leaves it with zero
primary contacts. -/
theorem primary_count_cleared (owners : List BusinessOwner) (bid : Nat) :
    primary_count (owners.map (fun o => if o.business_id == bid then
      { o with is_primary_contact := false } else o)) bid = 0 := by
  unfold primary_count
  rw [List.countP_map, List.countP_eq_zero]
  intro o ho
  by_cases hb : (o.business_id == bid) = true
  · simp [Function.comp, hb]
  · simp [Function.comp, hb]

/-- Clearing the primary flags of one business does not change another
business's primary count. -/
theorem primary_count_cleared_other (owners : List BusinessOwner)
    (bid b : Nat) (hne : bid ≠ b) :
    primary_count (owners.map (fun o => if o.business_id == bid then
      { o with is_primary_contact := false } else o)) b =
      primary_count owners b := by
  unfold primary_count
  rw [List.countP_map]
  apply List.countP_congr
  intro o ho
  by_cases hb : (o.business_id == bid) = true
  · have hob : (o.business_id == b) = false := by
      rw [beq_iff_eq.mp hb]
      exact beq_false_of_ne hne
    simp [Function.comp, hb, hob]
  · simp [Function.comp, hb]

/-- A successful add_owner preserves the at-most-one-primary invariant
of every business. -/
theorem add_owner_preserves_primary (owners os' : List BusinessOwner)
    (bid actor new_user : Nat) (admin : Bool) (otype : OwnershipType)
    (pct : Option Nat) (is_primary : Bool) (b : Nat)
    (hinv : primary_count owners b ≤ 1)
    (hok : add_owner owners bid actor admin new_user otype pct is_primary =
      Except.ok os') :
    primary_count os' b ≤ 1 := by
  unfold add_owner at hok
  split at hok
  · cases hok
  · split at hok
    · cases hok
    · injection hok with hos
      subst hos
      rw [primary_count, List.countP_append, ← primary_count]
      cases is_primary with
      | false =>
        have hnew : List.countP (fun o => o.business_id == b &&
            o.is_primary_contact)
            [({ business_id := bid, user_id := new_user, ownership_type := otype,
                ownership_percentage := pct,
                is_primary_contact := false } : BusinessOwner)] = 0 := by
          simp
        rw [hnew]
        simpa using hinv
      | true =>
        rw [if_pos rfl]
        by_cases hbb : bid = b
        · subst hbb
          rw [primary_count_cleared]
          simp [List.countP_cons]
        · rw [primary_count_cleared_other owners bid b hbb]
          have hnew : List.countP (fun o => o.business_id == b &&
              o.is_primary_contact)
              [({ business_id := bid, user_id := new_user, ownership_type := otype,
                  ownership_percentage := pct,
                  is_primary_contact := true } : BusinessOwner)] = 0 := by
            simp [beq_false_of_ne hbb]
          rw [hnew]
          simpa using hinv

/-- C8: every business keeps at most one primary contact across any
sequence of add-owner requests; an authorized actor adding an existing
owner gets AlreadyOwner; and in the concrete two-owner scenario, adding
owner B as primary while A is primary leaves exactly one primary (B)
with A's flag cleared. -/
theorem C8_primary_contact_invariant :
    (∀ (owners : List BusinessOwner) (b : Nat) (reqs : List AddOwnerRequest),
      primary_count owners b ≤ 1 →
      primary_count (run_add_owners owners reqs) b ≤ 1) ∧
    (∀ (owners : List BusinessOwner) (bid actor new_user : Nat) (admin : Bool)
        (otype : OwnershipType) (pct : Option Nat) (is_primary : Bool),
      (admin = true ∨ ∃ o ∈ owners, o.business_id = bid ∧ o.user_id = actor ∧
        o.is_primary_contact = true) →
      (∃ o ∈ owners, o.business_id = bid ∧ o.user_id = new_user) →
      add_owner owners bid actor admin new_user otype pct is_primary =
        Except.error AddOwnerError.alreadyOwner) ∧
    (add_owner [ownerAlice] 3 1 false 2 OwnershipType.owner none true =
      Except.ok [{ ownerAlice with is_primary_contact := false },
                 { business_id := 3, user_id := 2,
                   ownership_type := OwnershipType.owner,
                   ownership_percentage := none, is_primary_contact := true }] ∧
     primary_count [{ ownerAlice with is_primary_contact := false },
                    { business_id := 3, user_id := 2,
                      ownership_type := OwnershipType.owner,
                      ownership_percentage := none,
                      is_primary_contact := true }] 3 = 1) := by
  refine ⟨?_, ?_, by decide⟩
  · intro owners b reqs hinv
    induction reqs generalizing owners with
    | nil => exact hinv
    | cons r rs ih =>
      apply ih
      unfold run_add_owner
      cases hok : add_owner owners r.business_id r.actor r.actor_is_admin
          r.new_user r.otype r.pct r.is_primary with
      | ok os =>
        exact add_owner_preserves_primary owners os r.business_id r.actor
          r.new_user r.actor_is_admin r.otype r.pct r.is_primary b hinv hok
      | error e => exact hinv
  · intro owners bid actor new_user admin otype pct is_primary hperm hex
    have hpermb : (!(admin || owners.any (fun o => o.business_id == bid &&
        o.user_id == actor && o.is_primary_contact))) = false := by
      cases hperm with
      | inl h1 => rw [h1]; rfl
      | inr h1 =>
        rcases h1 with ⟨o, ho, hob, hou, hop⟩
        have hany : (owners.any (fun o => o.business_id == bid &&
            o.user_id == actor && o.is_primary_contact)) = true :=
          List.any_eq_true.mpr ⟨o, ho, by simp [hob, hou, hop]⟩
        rw [hany, Bool.or_true]
        rfl
    have hanyo : (owners.any (fun o => o.business_id == bid &&
        o.user_id == new_user)) = true := by
      rcases hex with ⟨o, ho, hob, hou⟩
      exact List.any_eq_true.mpr ⟨o, ho, by simp [hob, hou]⟩
    unfold add_owner
    rw [hpermb, hanyo]
    rfl

/-- Witness for C8 at concrete inputs: one primary owner, one request
adding a second primary owner, invariant intact afterwards; Alice the
primary owner cannot re-add herself. -/
theorem C8_primary_contact_invariant_witness :
    primary_count (run_add_owners [ownerAlice]
      [{ business_id := 3, actor := 1, actor_is_admin := false, new_user := 2,
         otype := OwnershipType.owner, pct := none, is_primary := true }]) 3 ≤ 1 ∧
    add_owner [ownerAlice] 3 1 false 1 OwnershipType.owner none false =
      Except.error AddOwnerError.alreadyOwner := by
  constructor
  · exact C8_primary_contact_invariant.1 [ownerAlice] 3
      [{ business_id := 3, actor := 1, actor_is_admin := false, new_user := 2,
         otype := OwnershipType.owner, pct := none, is_primary := true }] (by decide)
  · exact C8_primary_contact_invariant.2.1 [ownerAlice] 3 1 1 false
      OwnershipType.owner none false
      (Or.inr ⟨ownerAlice, by decide, rfl, rfl, rfl⟩)
      ⟨ownerAlice, by decide, rfl, rfl⟩

/-- After marking the token used, no unused token with that value can
be found again. -/
theorem find_marked_none (tokens : List AbstractToken) (tok : String) :
    (tokens.map (fun t0 => if t0.token == tok then
      { t0 with is_used := true } else t0)).find?
        (fun t => t.token == tok && !t.is_used) = none := by
  rw [List.find?_eq_none]
  intro t ht
  rcases List.mem_map.mp ht with ⟨t0, ht0, rfl⟩
  by_cases hb : (t0.token == tok) = true
  · simp [hb]
  · simp [hb]

/-- C9 counterexample: at the instant now = expires_at the code still
treats the token as valid (is_expired uses strict >), while the claim
requires the current time to be strictly before expires_at. -/
theorem C9_counterexample :
    AbstractToken.is_valid tokenBoundary 5 = true ∧
    ¬ (5 < tokenBoundary.expires_at) := by
  decide

/-- C9 amended: a token is valid exactly when it is unused and the
current time is at or before expires_at (not strictly before); a second
redemption of a password-reset or email-verification token fails with
InvalidOrUsedToken, and redemption strictly after expires_at fails with
TokenExpired even if unused, in both flows with no effect performed. -/
theorem C9_token_protocol :
    (∀ (t : AbstractToken) (now : Nat),
      AbstractToken.is_valid t now = (!t.is_used && decide (now ≤ t.expires_at))) ∧
    (∀ (tokens : List AbstractToken) (users : List Credential) (now : Nat)
        (tok pw : String) (res : List AbstractToken × List Credential),
      password_reset_confirm tokens users now tok pw = Except.ok res →
      ∀ (now' : Nat) (pw' : String),
        password_reset_confirm res.1 res.2 now' tok pw' =
          Except.error TokenError.invalidOrUsedToken) ∧
    (∀ (tokens : List AbstractToken) (users : List Credential) (now : Nat)
        (tok pw : String) (t : AbstractToken),
      tokens.find? (fun t0 => t0.token == tok && !t0.is_used) = some t →
      now > t.expires_at →
      password_reset_confirm tokens users now tok pw =
        Except.error TokenError.tokenExpired) ∧
    (∀ (tokens : List AbstractToken) (users : List EmailFlag) (now : Nat)
        (tok : String) (res : List AbstractToken × List EmailFlag),
      confirm_email_verification tokens users now tok = Except.ok res →
      ∀ (now' : Nat),
        confirm_email_verification res.1 res.2 now' tok =
          Except.error TokenError.invalidOrUsedToken) ∧
    (∀ (tokens : List AbstractToken) (users : List EmailFlag) (now : Nat)
        (tok : String) (t : AbstractToken),
      tokens.find? (fun t0 => t0.token == tok && !t0.is_used) = some t →
      now > t.expires_at →
      confirm_email_verification tokens users now tok =
        Except.error TokenError.tokenExpired) := by
  refine ⟨?_, ?_, ?_, ?_, ?_⟩
  · intro t now
    unfold AbstractToken.is_valid AbstractToken.is_expired
    congr 1
    rw [← decide_not, decide_eq_decide]
    exact Nat.not_lt
  · intro tokens users now tok pw res hok now' pw'
    unfold password_reset_confirm at hok
    split at hok
    · cases hok
    · split at hok
      · cases hok
      · injection hok with hpair
        subst hpair
        unfold password_reset_confirm
        rw [find_marked_none]
  · intro tokens users now tok pw t hfind hexp
    have hx : AbstractToken.is_expired t now = true := decide_eq_true hexp
    unfold password_reset_confirm
    simp only [hfind, hx]
    rfl
  · intro tokens users now tok res hok now'
    unfold confirm_email_verification at hok
    split at hok
    · cases hok
    · split at hok
      · cases hok
      · injection hok with hpair
        subst hpair
        unfold confirm_email_verification
        rw [find_marked_none]
  · intro tokens users now tok t hfind hexp
    have hx : AbstractToken.is_expired t now = true := decide_eq_true hexp
    unfold confirm_email_verification
    simp only [hfind, hx]
    rfl

/-- Witness for C9 at concrete inputs: redeeming the boundary token one
tick after expiry fails with TokenExpired. -/
theorem C9_token_protocol_witness :
    password_reset_confirm [tokenBoundary]
      [{ user_id := 1, password := "old" }] 6 "tk" "new" =
      Except.error TokenError.tokenExpired :=
  C9_token_protocol.2.2.1 [tokenBoundary]
    [{ user_id := 1, password := "old" }] 6 "tk" "new" tokenBoundary
    (by decide) (by decide)

/-- C10: the HTTP response of password_reset_request (status and body)
is the same for every user database, in particular for two databases
differing only in whether the supplied email belongs to an existing
user; only the internal side effects (token creation, email dispatch)
track account existence. -/
theorem C10_reset_request_uniform_response :
    ∀ (users usersB : List EmailUser) (email : String),
      (password_reset_request users email).response_detail =
        (password_reset_request usersB email).response_detail ∧
      (password_reset_request users email).http_status =
        (password_reset_request usersB email).http_status ∧
      (password_reset_request users email).response_detail =
        "If the email exists, a reset link has been sent." ∧
      (password_reset_request users email).http_status = 200 ∧
      ((password_reset_request users email).tokens_created = [] ↔
        users.find? (fun u => u.email == email) = none) := by
  intro users usersB email
  refine ⟨?_, ?_, ?_, ?_, ?_⟩
  · unfold password_reset_request
    cases users.find? (fun u => u.email == email) <;>
      cases usersB.find? (fun u => u.email == email) <;> rfl
  · unfold password_reset_request
    cases users.find? (fun u => u.email == email) <;>
      cases usersB.find? (fun u => u.email == email) <;> rfl
  · unfold password_reset_request
    cases users.find? (fun u => u.email == email) <;> rfl
  · unfold password_reset_request
    cases users.find? (fun u => u.email == email) <;> rfl
  · unfold password_reset_request
    cases h : users.find? (fun u => u.email == email) <;> simp

end Stats

